import Mathlib

/-!
Shallow embedding of the alert-decision subsystem of the repository
(`src/rules/ruleScorer.js`, `src/alerts/alertEngine.js`,
`src/alerts/alertStore.js`) and proofs about the frozen claims.

Conventions of the embedding:
* JavaScript numbers that carry clinical measurements are modelled as `ℚ`
  (all arithmetic the code performs on them is exact on the inputs of
  interest); integer scores are `ℕ` (every `add` in `computeRuleScore`
  adds a positive literal).
* Timestamps (ISO strings / `Date.now()` values) are modelled as `ℤ`
  milliseconds; `new Date(s).getTime()` is the identity in the model.
* `null`/`undefined`/absent fields are `Option`; JavaScript truthiness of
  a number `x` is `x ≠ 0`, of a string `s` is `s ≠ ""`.
* The external classifier call (`callGroq`) and `JSON.parse` are
  environment effects; they enter the model as explicit parameters
  (an `Except` response, a parse oracle), everything downstream of them
  is translated from the source.
-/

/-- Lower-casing, the model of `String.prototype.toLowerCase` (defined
over the character list so that it evaluates by kernel reduction). -/
def strLower (s : String) : String :=
  ⟨s.data.map Char.toLower⟩

/-- Whitespace trimming at both ends, the model of
`String.prototype.trim`. -/
def strTrim (s : String) : String :=
  ⟨((s.data.dropWhile Char.isWhitespace).reverse.dropWhile
      Char.isWhitespace).reverse⟩

/-- First `n` characters, the model of `.slice(0, n)`. -/
def strTake (s : String) (n : ℕ) : String :=
  ⟨s.data.take n⟩

/-- Prefix test, the model of `String.prototype.startsWith`. -/
def strStartsWith (s pat : String) : Bool :=
  pat.data.isPrefixOf s.data

/-- Separator join, the model of `Array.prototype.join`. -/
def joinWith (sep : String) : List String → String
  | [] => ""
  | [x] => x
  | x :: y :: xs => x ++ sep ++ joinWith sep (y :: xs)

/-- Decides whether `pat` occurs as a contiguous substring of `s`
(the model of JavaScript `String.prototype.includes` and of an
unanchored regular-expression literal alternative). -/
def listContainsSub : List Char → List Char → Bool
  | [], pat => pat.isEmpty
  | c :: t, pat =>
    pat.isPrefixOf (c :: t) || listContainsSub t pat

/-- String-level wrapper for `listContainsSub`. -/
def strContains (s pat : String) : Bool :=
  listContainsSub s.data pat.data

/-- True when `s` contains at least one of the literal alternatives,
the model of `/a|b|c/.test(s)`. -/
def strContainsAny (s : String) (pats : List String) : Bool :=
  pats.any (fun p => strContains s p)

/-- Case-insensitive variant, the model of `/a|b|c/i.test(s)` for
lower-case literals `a`, `b`, `c`. -/
def strContainsAnyCI (s : String) (pats : List String) : Bool :=
  strContainsAny (strLower s) pats

/-- Blood-pressure pair as produced by `parseBP` (`ruleScorer.js`):
both components come out of `toNumberSafe` and may be `null`. -/
structure BPv where
  sys : Option ℚ := none
  dia : Option ℚ := none
deriving Repr, DecidableEq

/-- Lab values extracted by `extractVitalsAndMetadata`; absent keys of the
JavaScript `labs` object are `none`. -/
structure Labs where
  wbc : Option ℚ := none
  hb : Option ℚ := none
  cr : Option ℚ := none
  lactate : Option ℚ := none
  platelets : Option ℚ := none
  bun : Option ℚ := none
  troponin : Option ℚ := none
deriving Repr, DecidableEq

/-- Entry of `out.woundPhrases` in `extractVitalsAndMetadata`. -/
structure WoundPhrase where
  keyword : String := ""
  sentence : String := ""
  negated : Bool := false
deriving Repr, DecidableEq

/-- Entry of `out.drains` in `extractVitalsAndMetadata`. -/
structure DrainEntry where
  text : String := ""
  ml : Option ℚ := none
deriving Repr, DecidableEq

/-- Entry of `out.symptoms` in `extractVitalsAndMetadata`. -/
structure SymptomEntry where
  symptom : String := ""
  sentence : String := ""
deriving Repr, DecidableEq

/-- Temperature unit as matched by the temperature regular expression. -/
inductive TempUnit
  | F
  | C
deriving Repr, DecidableEq

/-- The measurement record produced by `extractVitalsAndMetadata`
(`ruleScorer.js`), as consumed by `computeRuleScore`. -/
structure Parsed where
  age : Option ℚ := none
  tempRaw : Option ℚ := none
  tempUnit : Option TempUnit := none
  tempC : Option ℚ := none
  hr : Option ℚ := none
  rr : Option ℚ := none
  bp : Option BPv := none
  spo2 : Option ℚ := none
  procedureCodes : List String := []
  woundPhrases : List WoundPhrase := []
  drains : List DrainEntry := []
  meds : List String := []
  comorbidities : List String := []
  labs : Labs := {}
  symptoms : List SymptomEntry := []
  notes : String := ""
deriving Repr, DecidableEq

/-- JavaScript `Math.round` on an exact rational: `⌊q + 1/2⌋`
(round half toward positive infinity). -/
def jsRound (q : ℚ) : ℤ :=
  ⌊q + 1 / 2⌋

/-- Rounding to one decimal place, the model of
`Math.round(x * 10) / 10` in `extractVitalsAndMetadata`. -/
def roundTo1 (q : ℚ) : ℚ :=
  (jsRound (q * 10) : ℚ) / 10

/-- Temperature normalization of `extractVitalsAndMetadata`
(`ruleScorer.js` lines 83-98): the computation applied to the raw matched
value and the optional matched unit to obtain the stored `tempC`. -/
def normalizeTempC (raw : ℚ) (unit : Option TempUnit) : ℚ :=
  let tempC :=
    match unit with
    | some TempUnit.F => (raw - 32) * 5 / 9
    | some TempUnit.C => raw
    | none => if 45 ≤ raw then (raw - 32) * 5 / 9 else raw
  roundTo1 tempC

/-- Modelled from the spec (§4.1): "given a numeric value with no unit,
infer Fahrenheit if the raw value ≥45, else Celsius; convert Fahrenheit
to Celsius and round to one decimal". Written from the spec's words, to
be compared with `normalizeTempC`, which is written from the source. -/
def specTempNorm (raw : ℚ) (unit : Option TempUnit) : ℚ :=
  let effUnit :=
    match unit with
    | some u => u
    | none => if 45 ≤ raw then TempUnit.F else TempUnit.C
  let celsius :=
    match effUnit with
    | TempUnit.F => (raw - 32) * 5 / 9
    | TempUnit.C => raw
  roundTo1 celsius

/-- Sum of the point components of a list of (points, reason) entries. -/
def sumPts (l : List (ℕ × String)) : ℕ :=
  (l.map Prod.fst).sum

/-- Result record of `computeRuleScore`. -/
structure RuleResultOut where
  rule_score : ℕ
  rule_label : String
  breakdown : List String
deriving Repr, DecidableEq

/-- Section 1 of `computeRuleScore`: age points.  `if (parsed.age)` is a
truthiness test, false for `null` and for `0`. -/
def agePart (p : Parsed) : List (ℕ × String) :=
  match p.age with
  | none => []
  | some a =>
    if a = 0 then []
    else if 85 ≤ a then [(3, "Age >=85")]
    else if 75 ≤ a then [(2, "Age 75-84")]
    else if 65 ≤ a then [(1, "Age 65-74")]
    else []

/-- High-risk procedure keyword list of `computeRuleScore` section 2. -/
def highRiskProcs : List String :=
  ["cabg", "cardiac", "coronary", "angioplasty", "pci", "neurosurgery",
   "major", "transplant", "thoracotomy", "laparotomy", "colorectal",
   "vascular", "amputation", "orthopedic"]

/-- Section 2 of `computeRuleScore`: procedure risk. -/
def procPart (p : Parsed) : List (ℕ × String) :=
  if p.procedureCodes.length > 0 then
    let found := (p.procedureCodes.map strLower).filter
      (fun pc => highRiskProcs.any (fun h => strContains pc h))
    match found with
    | f :: _ => [(3, "High-risk procedure: " ++ f)]
    | [] => []
  else []

/-- Section 3 of `computeRuleScore`: temperature. -/
def tempPart (p : Parsed) : List (ℕ × String) :=
  match p.tempC with
  | none => []
  | some t =>
    if 39 ≤ t then [(4, "Fever >=39°C")]
    else if 38 ≤ t then [(2, "Fever 38-38.9°C")]
    else []

/-- Section 4 of `computeRuleScore`: heart rate. -/
def hrPart (p : Parsed) : List (ℕ × String) :=
  match p.hr with
  | none => []
  | some h =>
    if 130 ≤ h then [(3, "Severe tachycardia HR>=130")]
    else if 110 ≤ h then [(2, "Tachycardia HR 110-129")]
    else if h < 50 then [(2, "Bradycardia HR<50")]
    else []

/-- Section 5 of `computeRuleScore`: respiratory rate. -/
def rrPart (p : Parsed) : List (ℕ × String) :=
  match p.rr with
  | none => []
  | some r =>
    if 30 ≤ r then [(3, "Tachypnea RR>=30")]
    else if 24 ≤ r then [(1, "Tachypnea RR 24-29")]
    else []

/-- Section 5 of `computeRuleScore`, second half: respiratory symptoms,
`/shortness of breath|sob|dyspnea|chest pain/.test(s.symptom)`. -/
def respSymptomPart (p : Parsed) : List (ℕ × String) :=
  if p.symptoms.any (fun s =>
      strContainsAny s.symptom
        ["shortness of breath", "sob", "dyspnea", "chest pain"]) then
    [(3, "Respiratory symptoms")]
  else []

/-- Section 6 of `computeRuleScore`: oxygen saturation. -/
def spo2Part (p : Parsed) : List (ℕ × String) :=
  match p.spo2 with
  | none => []
  | some s =>
    if s < 90 then [(4, "SpO2 <90%")]
    else if s < 94 then [(2, "SpO2 90-93%")]
    else []

/-- Section 7 of `computeRuleScore`: blood pressure extremes.  Both adds
sit under `if (parsed.bp && parsed.bp.sys != null)`; `d` is
`parsed.bp.dia || 0`. -/
def bpPart (p : Parsed) : List (ℕ × String) :=
  match p.bp with
  | none => []
  | some bp =>
    match bp.sys with
    | none => []
    | some s =>
      let d := bp.dia.getD 0
      (if 180 ≤ s ∨ s ≤ 80 then [(3, "Systolic BP extreme")]
       else if 160 ≤ s then [(1, "High systolic BP >=160")]
       else []) ++
      (if 110 ≤ d then [(2, "Diastolic severe hypertension")] else [])

/-- Section 8 of `computeRuleScore`: non-negated wound phrase. -/
def woundPart (p : Parsed) : List (ℕ × String) :=
  if p.woundPhrases.any (fun w => !w.negated) then
    [(3, "Wound/surgical site concern")]
  else []

/-- Section 9 of `computeRuleScore`: drain output, `d.ml && d.ml >= 200`. -/
def drainPart (p : Parsed) : List (ℕ × String) :=
  if p.drains.length > 0 then
    if p.drains.any (fun dr =>
        match dr.ml with
        | some v => decide (v ≠ 0 ∧ 200 ≤ v)
        | none => false) then
      [(2, "High drain output")]
    else []
  else []

/-- The `bleedingMention` test of `computeRuleScore` section 10. -/
def bleedingMention (p : Parsed) : Bool :=
  p.symptoms.any (fun s =>
    strContainsAny s.symptom ["bleed", "bleeding", "hematoma", "hemorrhage"])

/-- The `onAnticoag` test of `computeRuleScore` section 10 (an `/i`
regular expression over each med entry). -/
def onAnticoag (p : Parsed) : Bool :=
  p.meds.any (fun m =>
    strContainsAnyCI m
      ["warfarin", "heparin", "enoxaparin", "apixaban", "rivaroxaban",
       "dabigatran", "aspirin", "clopidogrel", "ticagrelor", "prasugrel"])

/-- Section 10 of `computeRuleScore`: bleeding and anticoagulation. -/
def bleedingPart (p : Parsed) : List (ℕ × String) :=
  (if bleedingMention p then [(4, "Active bleeding")] else []) ++
  (if onAnticoag p ∧ ¬ bleedingMention p then
    [(1, "On anticoagulant/antiplatelet therapy")] else []) ++
  (if onAnticoag p ∧ bleedingMention p then
    [(2, "Anticoagulant + bleeding risk")] else [])

/-- Section 11 of `computeRuleScore`: white cell count. -/
def wbcPart (p : Parsed) : List (ℕ × String) :=
  match p.labs.wbc with
  | none => []
  | some w =>
    if 15 ≤ w then [(3, "High WBC >=15")]
    else if 11 ≤ w then [(1, "WBC 11-14.9")]
    else if w < 4 then [(1, "Low WBC <4")]
    else []

/-- Section 11 of `computeRuleScore`, lactate. -/
def lactatePart (p : Parsed) : List (ℕ × String) :=
  match p.labs.lactate with
  | none => []
  | some l =>
    if 4 ≤ l then [(4, "Lactate >=4 (shock marker)")]
    else if 2 ≤ l then [(2, "Lactate 2-3.9")]
    else []

/-- The `sepsisSigns` count of `computeRuleScore`. -/
def sepsisSigns (p : Parsed) : ℕ :=
  (match p.tempC with | some t => if 38 ≤ t then 1 else 0 | none => 0) +
  (match p.labs.wbc with | some w => if 11 ≤ w then 1 else 0 | none => 0) +
  (match p.hr with | some h => if 90 ≤ h then 1 else 0 | none => 0) +
  (match p.rr with | some r => if 22 ≤ r then 1 else 0 | none => 0) +
  (match p.spo2 with | some s => if s < 94 then 1 else 0 | none => 0)

/-- Sepsis-suspicion composite of `computeRuleScore`. -/
def sepsisPart (p : Parsed) : List (ℕ × String) :=
  if 3 ≤ sepsisSigns p then [(5, "Sepsis suspicion")] else []

/-- Section 12 of `computeRuleScore`: creatinine. -/
def crPart (p : Parsed) : List (ℕ × String) :=
  match p.labs.cr with
  | none => []
  | some c =>
    if 2 ≤ c then [(3, "Elevated creatinine >=2.0")]
    else if mkRat 3 2 ≤ c then [(1, "Elevated creatinine 1.5-1.99")]
    else []

/-- Section 12 of `computeRuleScore`, oliguria (an `/i` regular
expression). -/
def oliguriaPart (p : Parsed) : List (ℕ × String) :=
  if p.symptoms.any (fun s =>
      strContainsAnyCI s.symptom ["oliguria", "no urine", "decreased urine"]) then
    [(3, "Oliguria/AKI sign")]
  else []

/-- Section 13 of `computeRuleScore`: altered mental status. -/
def amsPart (p : Parsed) : List (ℕ × String) :=
  if p.symptoms.any (fun s =>
      strContainsAny s.symptom
        ["confusion", "delirium", "lethargy", "unresponsive"]) then
    [(4, "Altered mental status")]
  else []

/-- Section 14 of `computeRuleScore`: uncontrolled severe pain. -/
def painPart (p : Parsed) : List (ℕ × String) :=
  if p.symptoms.any (fun s =>
      strContainsAny s.symptom ["severe pain", "uncontrolled pain"]) then
    [(2, "Uncontrolled severe pain")]
  else []

/-- Section 15 of `computeRuleScore`: cardiac ischemia signal. -/
def cardiacPart (p : Parsed) : List (ℕ × String) :=
  if p.symptoms.any (fun s => strContains s.symptom "chest pain")
     ∨ p.labs.troponin.isSome
     ∨ strContains (strLower p.notes) "elevated troponin" then
    [(4, "Cardiac ischemia/elevated troponin")]
  else []

/-- Section 15 of `computeRuleScore`, arrhythmia symptom. -/
def arrhythmiaPart (p : Parsed) : List (ℕ × String) :=
  if p.symptoms.any (fun s =>
      strContainsAny s.symptom
        ["palpitation", "arrhythmia", "irregular heartbeat"]) then
    [(2, "Arrhythmia symptom")]
  else []

/-- Major comorbidity keyword list of `computeRuleScore` section 16. -/
def majorComorbs : List String :=
  ["diabetes", "heart failure", "ckd", "copd", "cancer", "dementia",
   "stroke", "coronary", "myocardial infarction"]

/-- Section 16 of `computeRuleScore`: comorbidity burden. -/
def comorbPart (p : Parsed) : List (ℕ × String) :=
  let comCount := (p.comorbidities.filter
    (fun c => majorComorbs.any (fun m => strContains c m))).length
  if 2 ≤ comCount then [(2, "Multiple major comorbidities")]
  else if comCount = 1 then [(1, "Major comorbidity")]
  else []

/-- Section 17 of `computeRuleScore`: anemia. -/
def hbPart (p : Parsed) : List (ℕ × String) :=
  match p.labs.hb with
  | none => []
  | some h =>
    if h < 7 then [(4, "Severe anemia (Hb<7)")]
    else if h < 9 then [(2, "Moderate anemia (Hb 7-8.9)")]
    else []

/-- Section 17 of `computeRuleScore`, thrombocytopenia. -/
def pltPart (p : Parsed) : List (ℕ × String) :=
  match p.labs.platelets with
  | none => []
  | some v => if v < 50 then [(3, "Thrombocytopenia <50k")] else []

/-- Section 18 of `computeRuleScore`: immunosuppression (an `/i` regular
expression over each med entry). -/
def immunoPart (p : Parsed) : List (ℕ × String) :=
  if p.meds.any (fun m =>
      strContainsAnyCI m ["steroid", "predni", "dexamethasone", "immunosuppress"]) then
    [(1, "On immunosuppressant/steroid")]
  else []

/-- Red-flag word list of `computeRuleScore` section 19, in source order
(the loop breaks at the first match). -/
def redflagWords : List String :=
  ["poor perfusion", "unstable", "transfer to icu", "icu", "escalate",
   "urgent", "worsening rapidly", "need reoperation", "re-explore",
   "critical"]

/-- Section 19 of `computeRuleScore`: first clinician red-flag word found
in the lower-cased notes contributes a flat +5, once. -/
def redflagPart (p : Parsed) : List (ℕ × String) :=
  let note := strLower p.notes
  match redflagWords.find? (fun w => strContains note w) with
  | some w => [(5, "Clinician red flag: " ++ w)]
  | none => []

/-- All point entries of `computeRuleScore`, in source evaluation order
(the order of the `add` calls). -/
def ruleEntries (p : Parsed) : List (ℕ × String) :=
  agePart p ++ procPart p ++ tempPart p ++ hrPart p ++ rrPart p ++
  respSymptomPart p ++ spo2Part p ++ bpPart p ++ woundPart p ++
  drainPart p ++ bleedingPart p ++ wbcPart p ++ lactatePart p ++
  sepsisPart p ++ crPart p ++ oliguriaPart p ++ amsPart p ++ painPart p ++
  cardiacPart p ++ arrhythmiaPart p ++ comorbPart p ++ hbPart p ++
  pltPart p ++ immunoPart p ++ redflagPart p

/-- Conservative cap of `computeRuleScore`: `if (score > 20) score = 20`. -/
def clampScore (n : ℕ) : ℕ :=
  if 20 < n then 20 else n

/-- Label mapping of `computeRuleScore`: 0-3 Low, 4-9 Medium, 10-20 High. -/
def ruleLabelOf (score : ℕ) : String :=
  if 10 ≤ score then "High" else if 4 ≤ score then "Medium" else "Low"

/-- The `computeRuleScore` function of `ruleScorer.js`: additive score
over the entries, capped at 20, with the 0-3/4-9/10-20 label mapping and
the formatted breakdown strings. -/
def computeRuleScore (p : Parsed) : RuleResultOut :=
  { rule_score := clampScore (sumPts (ruleEntries p))
    rule_label := ruleLabelOf (clampScore (sumPts (ruleEntries p)))
    breakdown :=
      (ruleEntries p).map (fun e => e.2 ++ " (+" ++ toString e.1 ++ ")") }

/-- Cooldown window of `alertEngine.js`: `1000 * 60 * 5` milliseconds. -/
def COOLDOWN_MS : ℤ := 1000 * 60 * 5

/-- Capacity bound of `alertStore.js`. -/
def MAX_ALERTS : ℕ := 2000

/-- Stored alert record as produced by `normalizeAlert` in
`alertStore.js`.  The nested `patient` object is flattened into
`patientId`/`patientName`; ISO timestamp strings are `ℤ` milliseconds. -/
structure Alert where
  id : String
  level : String
  patientId : String
  patientName : String
  reason : String
  score : Option ℕ
  source : String
  status : String
  acknowledgedBy : Option String
  acknowledgedAt : Option ℤ
  resolvedBy : Option String
  resolvedAt : Option ℤ
  resolutionNotes : String
  assignedTo : Option String
  createdAt : ℤ
  updatedAt : ℤ
  timestamp : ℤ
deriving Repr, DecidableEq

/-- The alert object the fusion engine hands to `pushAlert`
(`{id, level, patient, reason, score, source, timestamp}`). -/
structure NewAlert where
  id : String
  level : String
  patientId : String
  patientName : String
  reason : String
  score : Option ℕ
  source : String
  timestamp : ℤ
deriving Repr, DecidableEq

/-- Level coercion of `normalizeAlert` (`alertStore.js`): valid levels are
kept, anything else is mapped by keyword heuristics. -/
def levelCoerce (lvl : String) : String :=
  if lvl = "Emergency" ∨ lvl = "Priority" ∨ lvl = "Normal" then lvl
  else
    let lower := strLower lvl
    if strContains lower "emergency" ∨ strContains lower "critical" then
      "Emergency"
    else if strContains lower "priority" ∨ strContains lower "high"
            ∨ strContains lower "medium" then
      "Priority"
    else "Normal"

/-- The `normalizeAlert` function of `alertStore.js` restricted to the
shape the engine produces; `fallbackId` stands for the `uuidv4()` used
when `alert.id` is falsy, `now` for `new Date().toISOString()` (a real
ISO timestamp string is never falsy, so the stored `timestamp` keeps the
incoming value). -/
def normalizeAlert (a : NewAlert) (fallbackId : String) (now : ℤ) : Alert :=
  { id := if a.id = "" then fallbackId else a.id
    level := levelCoerce (if a.level = "" then "Normal" else a.level)
    patientId := if a.patientId = "" then "unknown" else a.patientId
    patientName := if a.patientName = "" then "Unknown Patient" else a.patientName
    reason := a.reason
    score := a.score
    source := if a.source = "" then "rules" else a.source
    status := "new"
    acknowledgedBy := none
    acknowledgedAt := none
    resolvedBy := none
    resolvedAt := none
    resolutionNotes := ""
    assignedTo := none
    createdAt := now
    updatedAt := now
    timestamp := a.timestamp }

/-- The `pushAlert` operation of `alertStore.js`: normalize, `unshift` to
the front of the newest-first list, trim to `MAX_ALERTS`, return the
normalized alert together with the new store contents. -/
def pushAlert (alerts : List Alert) (a : NewAlert) (fallbackId : String)
    (now : ℤ) : Alert × List Alert :=
  let n := normalizeAlert a fallbackId now
  (n, (n :: alerts).take MAX_ALERTS)

/-- The `getRecentForPatient` operation of `alertStore.js`:
case-insensitive patient-id match over the newest-first list, limited to
`min (max 1 limit) 200`. -/
def getRecentForPatient (alerts : List Alert) (patientId : String)
    (limit : ℕ) : List Alert :=
  if patientId = "" then []
  else
    let safeLimit := min (max 1 limit) 200
    (alerts.filter (fun a => strLower a.patientId == strLower patientId)).take safeLimit

/-- The `isWithinCooldown` check of `alertEngine.js`: true when some alert
of the same level for the patient, among the 20 most recent, has a
timestamp within the last `COOLDOWN_MS` milliseconds. -/
def isWithinCooldown (alerts : List Alert) (patientId level : String)
    (now : ℤ) : Bool :=
  if patientId = "" ∨ level = "" then false
  else
    (getRecentForPatient alerts patientId 20).any (fun a =>
      a.level == level &&
        (decide (now - a.timestamp < COOLDOWN_MS) && decide (0 ≤ now - a.timestamp)))

/-- Partial-update object passed to `updateAlert`; `none` means the field
is absent from `updates` (JavaScript spread semantics). -/
structure AlertUpdates where
  status : Option String := none
  acknowledgedBy : Option String := none
  acknowledgedAt : Option ℤ := none
  resolvedBy : Option String := none
  resolvedAt : Option ℤ := none
  resolutionNotes : Option String := none
  assignedTo : Option String := none
deriving Repr, DecidableEq

/-- The merge performed by `updateAlert` (`alertStore.js`): spread of
`updates` over the stored alert, `updatedAt` refreshed, then the
first-entry stamping of `acknowledgedAt`/`resolvedAt` guarded on the OLD
record having no timestamp yet. -/
def applyUpdates (old : Alert) (u : AlertUpdates) (now : ℤ) : Alert :=
  let merged : Alert :=
    { old with
      status := u.status.getD old.status
      acknowledgedBy :=
        match u.acknowledgedBy with
        | some v => some v
        | none => old.acknowledgedBy
      acknowledgedAt :=
        match u.acknowledgedAt with
        | some v => some v
        | none => old.acknowledgedAt
      resolvedBy :=
        match u.resolvedBy with
        | some v => some v
        | none => old.resolvedBy
      resolvedAt :=
        match u.resolvedAt with
        | some v => some v
        | none => old.resolvedAt
      resolutionNotes := u.resolutionNotes.getD old.resolutionNotes
      assignedTo :=
        match u.assignedTo with
        | some v => some v
        | none => old.assignedTo
      updatedAt := now }
  let merged :=
    if u.status = some "acknowledged" ∧ old.acknowledgedAt = none then
      { merged with acknowledgedAt := some now }
    else merged
  if u.status = some "resolved" ∧ old.resolvedAt = none then
    { merged with resolvedAt := some now }
  else merged

/-- The `updateAlert` operation of `alertStore.js`: find by id, merge,
write back in place; `none` when the id is not present. -/
def updateAlert (alerts : List Alert) (alertId : String) (u : AlertUpdates)
    (now : ℤ) : Option Alert × List Alert :=
  match alerts.findIdx? (fun a => a.id == alertId) with
  | none => (none, alerts)
  | some idx =>
    match alerts[idx]? with
    | none => (none, alerts)
    | some old =>
      let updated := applyUpdates old u now
      (some updated, alerts.set idx updated)

/-- The `acknowledgeAlert` wrapper of `alertStore.js`. -/
def acknowledgeAlert (alerts : List Alert) (alertId userId : String)
    (now : ℤ) : Option Alert × List Alert :=
  updateAlert alerts alertId
    { status := some "acknowledged"
      acknowledgedBy := some userId
      acknowledgedAt := some now } now

/-- The `resolveAlert` wrapper of `alertStore.js`. -/
def resolveAlert (alerts : List Alert) (alertId userId notes : String)
    (now : ℤ) : Option Alert × List Alert :=
  updateAlert alerts alertId
    { status := some "resolved"
      resolvedBy := some userId
      resolvedAt := some now
      resolutionNotes := some notes } now

/-- Label/justification pair returned by the message classifier
(`classifyMessageLLM`; the source calls the justification `reason`). -/
structure LLMResult where
  label : String
  reason : String
deriving Repr, DecidableEq

/-- Fields of a successfully parsed classifier response object; `none`
for an absent field (`parsed.label`/`parsed.reason` undefined). -/
structure ParsedJson where
  label : Option String := none
  reason : Option String := none
deriving Repr, DecidableEq

/-- Label normalization of `classifyMessageLLM`: prefix match on the
lower-cased label (`e` → Emergency, `p` → Priority, else Normal). -/
def normalizeLLMLabel (label : String) : String :=
  if strStartsWith (strLower label) "e" then "Emergency"
  else if strStartsWith (strLower label) "p" then "Priority"
  else "Normal"

/-- The `classifyMessageLLM` function of `alertEngine.js`.  The network
call is the `response` argument (`Except.error` when `callGroq` throws);
`tryParse` is the oracle for lines 124-127 (strip markdown fences, then
`JSON.parse`), returning `none` exactly when `JSON.parse` throws on the
cleaned text.  Everything else is translated from the source: empty
message and network failure return `{Normal, ""}`; a parse failure falls
back to a keyword scan of the response text. -/
def classifyMessageLLM (tryParse : String → Option ParsedJson)
    (message : String) (response : Except Unit String) : LLMResult :=
  if strTrim message = "" then { label := "Normal", reason := "" }
  else
    match response with
    | .error _ => { label := "Normal", reason := "" }
    | .ok t =>
      let text := strTrim t
      match tryParse text with
      | some parsed =>
        let label := strTrim
          (match parsed.label with
           | some l => if l = "" then "Normal" else l
           | none => "Normal")
        let reason := strTrim (parsed.reason.getD "")
        { label := normalizeLLMLabel label
          reason := if reason = "" then "LLM classification" else reason }
      | none =>
        let lower := strLower text
        if strContains lower "emergency" then
          { label := "Emergency", reason := strTake text 200 }
        else if strContains lower "priority" then
          { label := "Priority", reason := strTake text 200 }
        else { label := "Normal", reason := strTake text 200 }

/-- Vitals object consulted by `checkImmediateRules`. -/
structure Vitals where
  tempC : Option ℚ := none
  spo2 : Option ℚ := none
  bp : Option BPv := none
  hr : Option ℚ := none
deriving Repr, DecidableEq

/-- Result object of `checkImmediateRules` (`{level, reason}`). -/
structure ImmediateHit where
  level : String
  reason : String
deriving Repr, DecidableEq

/-- Temperature clause of `checkImmediateRules`. -/
def checkTempRule (v : Vitals) : Option ImmediateHit :=
  match v.tempC with
  | some t =>
    if mkRat 385 10 ≤ t then
      some { level := "Emergency"
             reason := "High fever ≥38.5°C (" ++ toString t ++ "°C)" }
    else none
  | none => none

/-- Oxygen-saturation clause of `checkImmediateRules`. -/
def checkSpo2Rule (v : Vitals) : Option ImmediateHit :=
  match v.spo2 with
  | some s =>
    if s < 90 then
      some { level := "Emergency"
             reason := "Critical oxygen saturation <90% (" ++ toString s ++ "%)" }
    else none
  | none => none

/-- Blood-pressure clause of `checkImmediateRules`. -/
def checkBPRule (v : Vitals) : Option ImmediateHit :=
  match v.bp with
  | some bp =>
    match bp.sys with
    | some s =>
      if s < 90 then
        some { level := "Emergency"
               reason := "Hypotension: SBP <90 mmHg (" ++ toString s ++ " mmHg)" }
      else none
    | none => none
  | none => none

/-- Heart-rate clause of `checkImmediateRules`. -/
def checkHRRule (v : Vitals) : Option ImmediateHit :=
  match v.hr with
  | some h =>
    if 140 < h ∨ h < 40 then
      some { level := "Emergency"
             reason := "Critical heart rate (HR: " ++ toString h ++ " bpm)" }
    else none
  | none => none

/-- Bleeding clause of `checkImmediateRules`:
`/uncontrolled bleeding|severe bleeding|active bleeding/i` on the
message (the empty message matches nothing). -/
def checkBleedingRule (message : String) : Option ImmediateHit :=
  if strContainsAnyCI message
      ["uncontrolled bleeding", "severe bleeding", "active bleeding"] then
    some { level := "Emergency", reason := "Active bleeding reported" }
  else none

/-- The `checkImmediateRules` function of `alertEngine.js`.  In the
source the vitals argument is `mergedVitals || ruleResult?.vitals ||
llmParsed?.vitals || {}`; `evaluateAndEmitAlert` always passes an object
(possibly empty) for `mergedVitals`, so that expression is always
`mergedVitals`, which is the `v` here. -/
def checkImmediateRules (v : Vitals) (message : String) : Option ImmediateHit :=
  match checkTempRule v with
  | some hit => some hit
  | none =>
    match checkSpo2Rule v with
    | some hit => some hit
    | none =>
      match checkBPRule v with
      | some hit => some hit
      | none =>
        match checkHRRule v with
        | some hit => some hit
        | none => checkBleedingRule message

/-- Message normalization of `evaluateAndEmitAlert`:
`message ? String(message).trim() : ''`. -/
def normMsg (message : Option String) : String :=
  strTrim (message.getD "")

/-- Patient argument of `evaluateAndEmitAlert` (`{id, name}`, with the
fallback lookup of `patient.patientName`); the empty string models a
falsy/absent field. -/
structure PatientIn where
  id : String := ""
  name : String := ""
  patientName : String := ""
deriving Repr, DecidableEq

/-- Rule-result argument of `evaluateAndEmitAlert`
(`{rule_score, rule_label, breakdown}`, optionally carrying vitals). -/
structure RuleResultIn where
  rule_score : Option ℕ := none
  rule_label : String := ""
  breakdown : List String := []
  vitals : Option Vitals := none
deriving Repr, DecidableEq

/-- LLM-parsed argument of `evaluateAndEmitAlert`; only its optional
vitals are consulted. -/
structure LLMParsedIn where
  vitals : Option Vitals := none
deriving Repr, DecidableEq

/-- Vitals source selection of `evaluateAndEmitAlert`:
`vitals || normalizedRuleResult?.vitals || normalizedLLMParsed?.vitals || {}`. -/
def mergedVitalsOf (ruleResult : Option RuleResultIn)
    (llmParsed : Option LLMParsedIn) (vitals : Option Vitals) : Vitals :=
  ((vitals.orElse fun _ => (ruleResult.getD {}).vitals).orElse
    fun _ => (llmParsed.getD {}).vitals).getD {}

/-- Alert level of the score cascade in `evaluateAndEmitAlert`
(score ≥16 → Emergency, ≥10 → Priority, ≥4 → Priority, else Normal). -/
def levelOfScore (s : ℕ) : String :=
  if 16 ≤ s then "Emergency"
  else if 10 ≤ s then "Priority"
  else if 4 ≤ s then "Priority"
  else "Normal"

/-- Reason text of the score cascade in `evaluateAndEmitAlert`. -/
def reasonOfScore (s : ℕ) (topFactors : String) : String :=
  if 16 ≤ s then
    if topFactors ≠ "" then "Critical risk: " ++ topFactors
    else "Critical risk score (" ++ toString s ++ "/20)"
  else if 10 ≤ s then
    if topFactors ≠ "" then "High risk: " ++ topFactors
    else "High risk score (" ++ toString s ++ "/20)"
  else if 4 ≤ s then
    if topFactors ≠ "" then "Moderate risk: " ++ topFactors
    else "Medium risk score (" ++ toString s ++ "/20)"
  else
    if topFactors ≠ "" then "Low risk: " ++ topFactors
    else "Low risk score (" ++ toString s ++ "/20)"

/-- Cooldown consultation of the score cascade: the Emergency and the two
Priority branches call `isWithinCooldown` with their level, the Normal
branch never does. -/
def cooldownHitFor (store : List Alert) (patientId : String) (s : ℕ)
    (now : ℤ) : Bool :=
  if 16 ≤ s then isWithinCooldown store patientId "Emergency" now
  else if 10 ≤ s then isWithinCooldown store patientId "Priority" now
  else if 4 ≤ s then isWithinCooldown store patientId "Priority" now
  else false

/-- Steps 4-6 of `evaluateAndEmitAlert` (the path taken when no immediate
rule fired): score-based level, cooldown, optional classifier enrichment
of the reason, push.  `llm` is the awaited result of
`classifyMessageLLM` (which never throws, so the surrounding try/catch
is inert). -/
def scoreBasedPath (store : List Alert) (patientId patientName : String)
    (nrr : RuleResultIn) (msg : String) (ts now : ℤ) (freshId : String)
    (llm : LLMResult) : Option Alert × List Alert :=
  let ruleScore := nrr.rule_score.getD 0
  let topFactors := joinWith ", " (nrr.breakdown.take 2)
  let level := levelOfScore ruleScore
  let reason0 := reasonOfScore ruleScore topFactors
  if cooldownHitFor store patientId ruleScore now then
    ((getRecentForPatient store patientId 1).find? (fun a => a.level == level),
     store)
  else
    let enhanced :=
      if msg ≠ "" ∧ level ≠ "Emergency" ∧ strTrim llm.reason ≠ "" then
        (reason0 ++ " | " ++ llm.reason, "fusion")
      else (reason0, "rules")
    let pushed := pushAlert store
      { id := freshId, level := level, patientId := patientId,
        patientName := patientName, reason := enhanced.1,
        score := some ruleScore, source := enhanced.2,
        timestamp := ts } freshId now
    (some pushed.1, pushed.2)

/-- The `evaluateAndEmitAlert` entry point of `alertEngine.js`, as a
state-passing function over the store contents.  `now` models
`Date.now()`; `freshId` models the `uuidv4()` drawn for a created alert;
`llm` models the classifier call result (consumed only on the
score-based, non-Emergency path).  Socket broadcasting has no effect on
the returned alert or the store and is not modelled. -/
def evaluateAndEmitAlert (store : List Alert) (patient : Option PatientIn)
    (ruleResult : Option RuleResultIn) (llmParsed : Option LLMParsedIn)
    (vitals : Option Vitals) (message : Option String)
    (timestamp : Option ℤ) (now : ℤ) (freshId : String)
    (llm : LLMResult) : Option Alert × List Alert :=
  match patient with
  | none => (none, store)
  | some pt =>
    if pt.id = "" then (none, store)
    else
      let patientId := pt.id
      let patientName :=
        if strTrim pt.name ≠ "" then strTrim pt.name
        else if strTrim pt.patientName ≠ "" then strTrim pt.patientName
        else "Unknown Patient"
      let nrr := ruleResult.getD {}
      let msg := normMsg message
      let ts := timestamp.getD now
      let vitalsForRules := mergedVitalsOf ruleResult llmParsed vitals
      match checkImmediateRules vitalsForRules msg with
      | some hit =>
        if hit.level = "Emergency" then
          if isWithinCooldown store patientId "Emergency" now then
            ((getRecentForPatient store patientId 1).find?
               (fun a => a.level == "Emergency"), store)
          else
            let pushed := pushAlert store
              { id := freshId, level := "Emergency", patientId := patientId,
                patientName := patientName, reason := hit.reason,
                score :=
                  match nrr.rule_score with
                  | some s => if s = 0 then none else some s
                  | none => none,
                source := "rules", timestamp := ts } freshId now
            (some pushed.1, pushed.2)
        else
          scoreBasedPath store patientId patientName nrr msg ts now freshId llm
      | none =>
        scoreBasedPath store patientId patientName nrr msg ts now freshId llm

/-- C2: for every parsed measurement record, `computeRuleScore` returns a
score in the closed interval [0, 20] (every factor contributes a
non-negative number of points and the sum is clamped to 20). -/
theorem computeRuleScore_score_bounds (p : Parsed) :
    0 ≤ (computeRuleScore p).rule_score ∧ (computeRuleScore p).rule_score ≤ 20 := by
  refine ⟨Nat.zero_le _, ?_⟩
  simp only [computeRuleScore, clampScore]
  split <;> omega

/-- C8: the temperature normalization computed by the extractor
(Fahrenheit converted, Celsius kept, Fahrenheit inferred for a unitless
value exactly when it is ≥ 45, result rounded to one decimal) coincides
with the spec's description for every raw value and unit. -/
theorem normalizeTempC_eq_specTempNorm (raw : ℚ) (unit : Option TempUnit) :
    normalizeTempC raw unit = specTempNorm raw unit := by
  cases unit with
  | none =>
    unfold normalizeTempC specTempNorm
    by_cases h : 45 ≤ raw
    · simp only [if_pos h]
    · simp only [if_neg h]
  | some u => cases u <;> rfl

/-- Measurement record whose only populated field is the blood pressure,
used to exhibit the blood-pressure contribution of `computeRuleScore`. -/
def bpOnlyRecord (s d : ℚ) : Parsed :=
  { bp := some { sys := some s, dia := some d } }

/-- C9 counterexample: at systolic 160 / diastolic 70 the rule scorer
awards 1 point for blood pressure, although neither of the claim's two
conditions (systolic ≤ 80 or ≥ 180; diastolic ≥ 110) holds, so the claim
that no other blood-pressure points exist is false. -/
theorem bp_scoring_counterexample :
    (computeRuleScore (bpOnlyRecord 160 70)).rule_score = 1 ∧
    ¬ ((160 : ℚ) ≤ 80 ∨ (180 : ℚ) ≤ 160) ∧ ¬ ((110 : ℚ) ≤ 70) :=
  ⟨rfl, by norm_num, by norm_num⟩

/-- C9 amended: for a record carrying only a blood-pressure reading, the
rule score equals +3 when systolic ≤ 80 or ≥ 180, otherwise +1 when
systolic ≥ 160, plus +2 when diastolic ≥ 110. -/
theorem bp_scoring_amended (s d : ℚ) :
    (computeRuleScore (bpOnlyRecord s d)).rule_score =
      (if 180 ≤ s ∨ s ≤ 80 then 3 else if 160 ≤ s then 1 else 0) +
      (if 110 ≤ d then 2 else 0) := by
  have hentries : ruleEntries (bpOnlyRecord s d) = bpPart (bpOnlyRecord s d) := by
    unfold ruleEntries
    rw [show agePart (bpOnlyRecord s d) = [] from rfl]
    rw [show procPart (bpOnlyRecord s d) = [] from rfl]
    rw [show tempPart (bpOnlyRecord s d) = [] from rfl]
    rw [show hrPart (bpOnlyRecord s d) = [] from rfl]
    rw [show rrPart (bpOnlyRecord s d) = [] from rfl]
    rw [show respSymptomPart (bpOnlyRecord s d) = [] from rfl]
    rw [show spo2Part (bpOnlyRecord s d) = [] from rfl]
    rw [show woundPart (bpOnlyRecord s d) = [] from rfl]
    rw [show drainPart (bpOnlyRecord s d) = [] from rfl]
    rw [show bleedingPart (bpOnlyRecord s d) = [] from rfl]
    rw [show wbcPart (bpOnlyRecord s d) = [] from rfl]
    rw [show lactatePart (bpOnlyRecord s d) = [] from rfl]
    rw [show sepsisPart (bpOnlyRecord s d) = [] from rfl]
    rw [show crPart (bpOnlyRecord s d) = [] from rfl]
    rw [show oliguriaPart (bpOnlyRecord s d) = [] from rfl]
    rw [show amsPart (bpOnlyRecord s d) = [] from rfl]
    rw [show painPart (bpOnlyRecord s d) = [] from rfl]
    rw [show cardiacPart (bpOnlyRecord s d) = [] from rfl]
    rw [show arrhythmiaPart (bpOnlyRecord s d) = [] from rfl]
    rw [show comorbPart (bpOnlyRecord s d) = [] from rfl]
    rw [show hbPart (bpOnlyRecord s d) = [] from rfl]
    rw [show pltPart (bpOnlyRecord s d) = [] from rfl]
    rw [show immunoPart (bpOnlyRecord s d) = [] from rfl]
    rw [show redflagPart (bpOnlyRecord s d) = [] from rfl]
    simp
  have hscore : (computeRuleScore (bpOnlyRecord s d)).rule_score =
      clampScore (sumPts (ruleEntries (bpOnlyRecord s d))) := by
    simp only [computeRuleScore]
  have hbp : bpPart (bpOnlyRecord s d) =
      (if 180 ≤ s ∨ s ≤ 80 then [(3, "Systolic BP extreme")]
       else if 160 ≤ s then [(1, "High systolic BP >=160")]
       else []) ++
      (if 110 ≤ d then [(2, "Diastolic severe hypertension")] else []) := rfl
  rw [hscore, hentries, hbp]
  by_cases h1 : 180 ≤ s ∨ s ≤ 80 <;> by_cases h2 : 160 ≤ s <;>
    by_cases h3 : 110 ≤ d <;>
    simp [h1, h2, h3, sumPts, clampScore]

/-- Alert record used as the stored state for exercising the resolve
lifecycle (a fresh, never-acknowledged alert). -/
def c6Alert : Alert :=
  { id := "a1", level := "Normal", patientId := "p1", patientName := "P",
    reason := "", score := none, source := "rules", status := "new",
    acknowledgedBy := none, acknowledgedAt := none, resolvedBy := none,
    resolvedAt := none, resolutionNotes := "", assignedTo := none,
    createdAt := 0, updatedAt := 0, timestamp := 0 }

/-- C6: evaluation of the store at the failing input.  Resolving a
never-acknowledged alert succeeds and stamps `resolvedAt` (first two
conjuncts, as the claim states), but resolving the same alert a second
time at a later clock replaces `resolvedAt` with the second timestamp:
the `resolvedAt` passed inside `resolveAlert`'s update object is merged
by the spread before `updateAlert`'s first-entry guard can protect it. -/
theorem resolveAlert_restamps_resolvedAt :
    (resolveAlert [c6Alert] "a1" "u1" "" 1000).1.map Alert.resolvedAt =
      some (some 1000) ∧
    (resolveAlert [c6Alert] "a1" "u1" "" 1000).1.map Alert.status =
      some "resolved" ∧
    (resolveAlert [c6Alert] "a1" "u1" "" 1000).1.map Alert.acknowledgedAt =
      some none ∧
    (resolveAlert (resolveAlert [c6Alert] "a1" "u1" "" 1000).2
        "a1" "u2" "" 2000).1.map Alert.resolvedAt = some (some 2000) :=
  ⟨rfl, rfl, rfl, rfl⟩

/-- C7 counterexample: a response from which no object literal can be
parsed (the bare text `emergency`) does not yield `{Normal, ""}` — the
fallback keyword scan returns Emergency with a slice of the text. -/
theorem classify_unparseable_counterexample :
    classifyMessageLLM (fun _ => none) "help" (Except.ok "emergency") =
      { label := "Emergency", reason := "emergency" } ∧
    ({ label := "Emergency", reason := "emergency" } : LLMResult) ≠
      { label := "Normal", reason := "" } :=
  ⟨rfl, by decide⟩

/-- C7 amended: on a network error or timeout (the call throws) the
classifier returns `{Normal, ""}` and never raises; on a response whose
cleaned text cannot be parsed as an object literal it instead falls back
to a keyword scan of the text — Emergency if it contains "emergency",
else Priority if it contains "priority", else Normal — with the first
200 characters of the text as justification. -/
theorem classify_failure_behavior (tryParse : String → Option ParsedJson)
    (message t : String) (hm : strTrim message ≠ "")
    (hp : tryParse (strTrim t) = none) :
    classifyMessageLLM tryParse message (Except.error ()) =
      { label := "Normal", reason := "" } ∧
    classifyMessageLLM tryParse message (Except.ok t) =
      (if strContains (strLower (strTrim t)) "emergency" then
        { label := "Emergency", reason := strTake (strTrim t) 200 }
      else if strContains (strLower (strTrim t)) "priority" then
        { label := "Priority", reason := strTake (strTrim t) 200 }
      else { label := "Normal", reason := strTake (strTrim t) 200 }) := by
  constructor
  · unfold classifyMessageLLM
    rw [if_neg hm]
  · unfold classifyMessageLLM
    rw [if_neg hm]
    simp only [hp]

/-- Witness for `classify_failure_behavior` at a concrete failing input. -/
theorem classify_failure_behavior_witness :
    classifyMessageLLM (fun _ => none) "m" (Except.error ()) =
      { label := "Normal", reason := "" } ∧
    classifyMessageLLM (fun _ => none) "m" (Except.ok "nope") =
      (if strContains (strLower (strTrim "nope")) "emergency" then
        { label := "Emergency", reason := strTake (strTrim "nope") 200 }
      else if strContains (strLower (strTrim "nope")) "priority" then
        { label := "Priority", reason := strTake (strTrim "nope") 200 }
      else { label := "Normal", reason := strTake (strTrim "nope") 200 }) :=
  classify_failure_behavior (fun _ => none) "m" "nope" (by decide) rfl

/-- The immediate-override condition of claim C1, phrased over the merged
vitals and normalized message exactly as the claim lists it
(temperature ≥ 38.5 °C, SpO2 < 90, systolic < 90, HR > 140 or < 40, or
an active-bleeding phrase in the message). -/
def immediateOverrideCond (v : Vitals) (msg : String) : Prop :=
  (∃ t, v.tempC = some t ∧ mkRat 385 10 ≤ t) ∨
  (∃ s, v.spo2 = some s ∧ s < 90) ∨
  (∃ bp s, v.bp = some bp ∧ bp.sys = some s ∧ s < 90) ∨
  (∃ h, v.hr = some h ∧ (140 < h ∨ h < 40)) ∨
  strContainsAnyCI msg
    ["uncontrolled bleeding", "severe bleeding", "active bleeding"] = true

lemma checkTempRule_none {v : Vitals} (h : checkTempRule v = none) :
    ∀ t, v.tempC = some t → ¬ mkRat 385 10 ≤ t := by
  intro t ht hle
  unfold checkTempRule at h
  simp [ht, if_pos hle] at h

lemma checkSpo2Rule_none {v : Vitals} (h : checkSpo2Rule v = none) :
    ∀ s, v.spo2 = some s → ¬ s < 90 := by
  intro s hs hlt
  unfold checkSpo2Rule at h
  simp [hs, if_pos hlt] at h

lemma checkBPRule_none {v : Vitals} (h : checkBPRule v = none) :
    ∀ bp s, v.bp = some bp → bp.sys = some s → ¬ s < 90 := by
  intro bp s hbp hsys hlt
  unfold checkBPRule at h
  simp [hbp, hsys, if_pos hlt] at h

lemma checkHRRule_none {v : Vitals} (h : checkHRRule v = none) :
    ∀ r, v.hr = some r → ¬ (140 < r ∨ r < 40) := by
  intro r hr hcrit
  unfold checkHRRule at h
  simp [hr, if_pos hcrit] at h

lemma cir_isSome_of_cond {v : Vitals} {msg : String}
    (hc : immediateOverrideCond v msg) :
    ∃ hit, checkImmediateRules v msg = some hit := by
  unfold checkImmediateRules
  cases h1 : checkTempRule v with
  | some hit => exact ⟨hit, rfl⟩
  | none =>
  cases h2 : checkSpo2Rule v with
  | some hit => exact ⟨hit, rfl⟩
  | none =>
  cases h3 : checkBPRule v with
  | some hit => exact ⟨hit, rfl⟩
  | none =>
  cases h4 : checkHRRule v with
  | some hit => exact ⟨hit, rfl⟩
  | none =>
  rcases hc with ⟨t, ht, hle⟩ | ⟨s, hs, hlt⟩ | ⟨bp, s, hbp, hsys, hlt⟩ |
    ⟨r, hr, hcrit⟩ | hb
  · exact absurd hle (checkTempRule_none h1 t ht)
  · exact absurd hlt (checkSpo2Rule_none h2 s hs)
  · exact absurd hlt (checkBPRule_none h3 bp s hbp hsys)
  · exact absurd hcrit (checkHRRule_none h4 r hr)
  · exact ⟨_, by unfold checkBleedingRule; rw [if_pos hb]⟩

lemma checkTempRule_level {v : Vitals} {hit : ImmediateHit}
    (h : checkTempRule v = some hit) : hit.level = "Emergency" := by
  unfold checkTempRule at h
  cases ht : v.tempC with
  | none => simp [ht] at h
  | some t =>
    simp only [ht] at h
    split at h
    · rw [← Option.some.inj h]
    · simp at h

lemma checkSpo2Rule_level {v : Vitals} {hit : ImmediateHit}
    (h : checkSpo2Rule v = some hit) : hit.level = "Emergency" := by
  unfold checkSpo2Rule at h
  cases hs : v.spo2 with
  | none => simp [hs] at h
  | some s =>
    simp only [hs] at h
    split at h
    · rw [← Option.some.inj h]
    · simp at h

lemma checkBPRule_level {v : Vitals} {hit : ImmediateHit}
    (h : checkBPRule v = some hit) : hit.level = "Emergency" := by
  unfold checkBPRule at h
  cases hbp : v.bp with
  | none => simp [hbp] at h
  | some bp =>
    simp only [hbp] at h
    cases hsys : bp.sys with
    | none => simp [hsys] at h
    | some s =>
      simp only [hsys] at h
      split at h
      · rw [← Option.some.inj h]
      · simp at h

lemma checkHRRule_level {v : Vitals} {hit : ImmediateHit}
    (h : checkHRRule v = some hit) : hit.level = "Emergency" := by
  unfold checkHRRule at h
  cases hr : v.hr with
  | none => simp [hr] at h
  | some r =>
    simp only [hr] at h
    split at h
    · rw [← Option.some.inj h]
    · simp at h

lemma checkBleedingRule_level {msg : String} {hit : ImmediateHit}
    (h : checkBleedingRule msg = some hit) : hit.level = "Emergency" := by
  unfold checkBleedingRule at h
  split at h
  · rw [← Option.some.inj h]
  · simp at h

lemma cir_some_level {v : Vitals} {msg : String} {hit : ImmediateHit}
    (h : checkImmediateRules v msg = some hit) : hit.level = "Emergency" := by
  unfold checkImmediateRules at h
  cases h1 : checkTempRule v with
  | some hit1 => rw [h1] at h; exact Option.some.inj h ▸ checkTempRule_level h1
  | none =>
  rw [h1] at h
  cases h2 : checkSpo2Rule v with
  | some hit2 => rw [h2] at h; exact Option.some.inj h ▸ checkSpo2Rule_level h2
  | none =>
  rw [h2] at h
  cases h3 : checkBPRule v with
  | some hit3 => rw [h3] at h; exact Option.some.inj h ▸ checkBPRule_level h3
  | none =>
  rw [h3] at h
  cases h4 : checkHRRule v with
  | some hit4 => rw [h4] at h; exact Option.some.inj h ▸ checkHRRule_level h4
  | none =>
  rw [h4] at h
  exact checkBleedingRule_level h

/-- C1: whenever the merged vitals or message satisfy an immediate safety
condition and the Emergency cooldown is not active, the engine emits an
alert with level Emergency and source `rules` and pushes it, for every
rule score. -/
theorem immediate_override_emits_emergency
    (store : List Alert) (pt : PatientIn) (rr : Option RuleResultIn)
    (lp : Option LLMParsedIn) (vit : Option Vitals) (msgIn : Option String)
    (tsIn : Option ℤ) (now : ℤ) (freshId : String) (llm : LLMResult)
    (hpid : pt.id ≠ "")
    (hcond : immediateOverrideCond (mergedVitalsOf rr lp vit) (normMsg msgIn))
    (hcool : isWithinCooldown store pt.id "Emergency" now = false) :
    ∃ a, evaluateAndEmitAlert store (some pt) rr lp vit msgIn tsIn now freshId llm =
        (some a, (a :: store).take MAX_ALERTS) ∧
      a.level = "Emergency" ∧ a.source = "rules" := by
  obtain ⟨hit, hhit⟩ := cir_isSome_of_cond hcond
  have hlev := cir_some_level hhit
  refine ⟨normalizeAlert
      { id := freshId, level := "Emergency", patientId := pt.id,
        patientName :=
          if strTrim pt.name ≠ "" then strTrim pt.name
          else if strTrim pt.patientName ≠ "" then strTrim pt.patientName
          else "Unknown Patient",
        reason := hit.reason,
        score :=
          match (rr.getD {}).rule_score with
          | some s => if s = 0 then none else some s
          | none => none,
        source := "rules", timestamp := tsIn.getD now } freshId now, ?_, rfl, rfl⟩
  simp only [evaluateAndEmitAlert, hpid, if_false, hhit, hlev, hcool, pushAlert]
  simp

/-- Witness for `immediate_override_emits_emergency`: a 39 °C temperature
with an empty store. -/
theorem immediate_override_witness :
    ∃ a, evaluateAndEmitAlert [] (some { id := "p1", name := "N", patientName := "" })
        none none (some { tempC := some 39 }) none none 0 "a1" ⟨"Normal", ""⟩ =
        (some a, (a :: []).take MAX_ALERTS) ∧
      a.level = "Emergency" ∧ a.source = "rules" :=
  immediate_override_emits_emergency [] { id := "p1", name := "N", patientName := "" }
    none none (some { tempC := some 39 }) none none 0 "a1" ⟨"Normal", ""⟩
    (by decide) (Or.inl ⟨39, rfl, by decide⟩) rfl

lemma levelOfScore_valid (s : ℕ) :
    levelOfScore s = "Emergency" ∨ levelOfScore s = "Priority" ∨
      levelOfScore s = "Normal" := by
  unfold levelOfScore
  split_ifs <;> simp

lemma normalize_level_keeps (lvl : String)
    (h : lvl = "Emergency" ∨ lvl = "Priority" ∨ lvl = "Normal") :
    levelCoerce (if lvl = "" then "Normal" else lvl) = lvl := by
  rcases h with rfl | rfl | rfl <;> rfl

lemma levelOfScore_eq_emergency_iff (s : ℕ) :
    levelOfScore s = "Emergency" ↔ 16 ≤ s := by
  unfold levelOfScore
  split_ifs with h1 h2 h3 <;> constructor <;> intro h <;>
    first | rfl | omega | simp_all

lemma levelOfScore_eq_priority_iff (s : ℕ) :
    levelOfScore s = "Priority" ↔ 4 ≤ s ∧ s ≤ 15 := by
  unfold levelOfScore
  split_ifs with h1 h2 h3 <;> constructor <;> intro h <;>
    first | rfl | omega | simp_all

lemma levelOfScore_eq_normal_iff (s : ℕ) :
    levelOfScore s = "Normal" ↔ s < 4 := by
  unfold levelOfScore
  split_ifs with h1 h2 h3 <;> constructor <;> intro h <;>
    first | rfl | omega | simp_all

/-- C3: with no immediate override and no cooldown suppression, the level
of the emitted alert is determined solely by the rule score with the
16/4 boundaries. -/
theorem score_determines_level
    (store : List Alert) (pt : PatientIn) (rr : Option RuleResultIn)
    (lp : Option LLMParsedIn) (vit : Option Vitals) (msgIn : Option String)
    (tsIn : Option ℤ) (now : ℤ) (freshId : String) (llm : LLMResult)
    (hpid : pt.id ≠ "")
    (hno : checkImmediateRules (mergedVitalsOf rr lp vit) (normMsg msgIn) = none)
    (hcool : cooldownHitFor store pt.id ((rr.getD {}).rule_score.getD 0) now = false) :
    ∃ a, (evaluateAndEmitAlert store (some pt) rr lp vit msgIn tsIn now freshId llm).1 =
        some a ∧
      (a.level = "Emergency" ↔ 16 ≤ (rr.getD {}).rule_score.getD 0) ∧
      (a.level = "Priority" ↔
        4 ≤ (rr.getD {}).rule_score.getD 0 ∧ (rr.getD {}).rule_score.getD 0 ≤ 15) ∧
      (a.level = "Normal" ↔ (rr.getD {}).rule_score.getD 0 < 4) := by
  simp only [evaluateAndEmitAlert, hpid, hno, scoreBasedPath, hcool, pushAlert]
  simp only [if_false, Bool.false_eq_true, ite_false]
  refine ⟨_, rfl, ?_, ?_, ?_⟩ <;>
    rw [show ∀ (x : NewAlert) f n, (normalizeAlert x f n).level =
        levelCoerce (if x.level = "" then "Normal" else x.level) from fun _ _ _ => rfl] <;>
    rw [normalize_level_keeps _ (levelOfScore_valid _)]
  · exact levelOfScore_eq_emergency_iff _
  · exact levelOfScore_eq_priority_iff _
  · exact levelOfScore_eq_normal_iff _

/-- Witness for `score_determines_level` at rule score 6 on an empty
store: the emitted level satisfies the Priority biconditional. -/
theorem score_determines_level_witness :
    ∃ a, (evaluateAndEmitAlert [] (some { id := "p1", name := "N", patientName := "" })
        (some { rule_score := some 6 }) none none none none 0 "a1"
        ⟨"Normal", ""⟩).1 = some a ∧
      (a.level = "Emergency" ↔ 16 ≤ ((some { rule_score := some 6 } : Option RuleResultIn).getD {}).rule_score.getD 0) ∧
      (a.level = "Priority" ↔
        4 ≤ ((some { rule_score := some 6 } : Option RuleResultIn).getD {}).rule_score.getD 0 ∧
        ((some { rule_score := some 6 } : Option RuleResultIn).getD {}).rule_score.getD 0 ≤ 15) ∧
      (a.level = "Normal" ↔ ((some { rule_score := some 6 } : Option RuleResultIn).getD {}).rule_score.getD 0 < 4) :=
  score_determines_level [] { id := "p1", name := "N", patientName := "" }
    (some { rule_score := some 6 }) none none none none 0 "a1" ⟨"Normal", ""⟩
    (by decide) rfl rfl

/-- C10: whenever no immediate rule fires and the rule score is below 4,
the engine always creates and persists a fresh Normal alert, whatever the
store already contains — the cooldown is never consulted for the Normal
level, so repeated Normal submissions each push a new record. -/
theorem normal_level_always_persists
    (store : List Alert) (pt : PatientIn) (rr : Option RuleResultIn)
    (lp : Option LLMParsedIn) (vit : Option Vitals) (msgIn : Option String)
    (tsIn : Option ℤ) (now : ℤ) (freshId : String) (llm : LLMResult)
    (hpid : pt.id ≠ "")
    (hno : checkImmediateRules (mergedVitalsOf rr lp vit) (normMsg msgIn) = none)
    (hscore : (rr.getD {}).rule_score.getD 0 < 4) :
    ∃ a, evaluateAndEmitAlert store (some pt) rr lp vit msgIn tsIn now freshId llm =
        (some a, (a :: store).take MAX_ALERTS) ∧
      a.level = "Normal" ∧ a.id = freshId := by
  have hch : cooldownHitFor store pt.id ((rr.getD {}).rule_score.getD 0) now = false := by
    unfold cooldownHitFor
    rw [if_neg (by omega), if_neg (by omega), if_neg (by omega)]
  have hL : levelOfScore ((rr.getD {}).rule_score.getD 0) = "Normal" :=
    (levelOfScore_eq_normal_iff _).mpr hscore
  simp only [evaluateAndEmitAlert, hpid, hno, scoreBasedPath, hch, pushAlert]
  simp only [if_false, Bool.false_eq_true, ite_false]
  refine ⟨_, rfl, ?_, ?_⟩
  · rw [show ∀ (x : NewAlert) f n, (normalizeAlert x f n).level =
        levelCoerce (if x.level = "" then "Normal" else x.level) from fun _ _ _ => rfl]
    rw [hL, normalize_level_keeps _ (Or.inr (Or.inr rfl))]
  · rw [show ∀ (x : NewAlert) f n, (normalizeAlert x f n).id =
        (if x.id = "" then f else x.id) from fun _ _ _ => rfl]
    simp

/-- Witness for `normal_level_always_persists` at rule score 0. -/
theorem normal_level_always_persists_witness :
    ∃ a, evaluateAndEmitAlert [] (some { id := "p1", name := "N", patientName := "" })
        (some { rule_score := some 0 }) none none none none 0 "a1" ⟨"Normal", ""⟩ =
        (some a, (a :: []).take MAX_ALERTS) ∧
      a.level = "Normal" ∧ a.id = "a1" :=
  normal_level_always_persists [] { id := "p1", name := "N", patientName := "" }
    (some { rule_score := some 0 }) none none none none 0 "a1" ⟨"Normal", ""⟩
    (by decide) rfl (by decide)

lemma normalizeAlert_level (x : NewAlert) (f : String) (n : ℤ) :
    (normalizeAlert x f n).level =
      levelCoerce (if x.level = "" then "Normal" else x.level) := rfl

lemma normalizeAlert_source (x : NewAlert) (f : String) (n : ℤ) :
    (normalizeAlert x f n).source =
      (if x.source = "" then "rules" else x.source) := rfl

lemma normalizeAlert_reason (x : NewAlert) (f : String) (n : ℤ) :
    (normalizeAlert x f n).reason = x.reason := rfl

lemma mem_store_of_find? {store : List Alert} {pid : String} {n : ℕ}
    {p : Alert → Bool} {a : Alert}
    (h : (getRecentForPatient store pid n).find? p = some a) : a ∈ store := by
  have hmem := List.mem_of_find?_eq_some h
  unfold getRecentForPatient at hmem
  split at hmem
  · simp at hmem
  · exact List.mem_of_mem_filter (List.take_subset _ _ hmem)

lemma scoreBasedPath_noninterference (store : List Alert) (pid pn : String)
    (nrr : RuleResultIn) (msg : String) (ts now : ℤ) (fid : String)
    (llm : LLMResult) :
    ((scoreBasedPath store pid pn nrr msg ts now fid llm).1.map Alert.level =
     (scoreBasedPath store pid pn nrr msg ts now fid ⟨"Normal", ""⟩).1.map Alert.level) ∧
    (∀ a, (scoreBasedPath store pid pn nrr msg ts now fid ⟨"Normal", ""⟩).1 = some a →
      a.source = "rules" ∨ a ∈ store) ∧
    (∀ a a0, (scoreBasedPath store pid pn nrr msg ts now fid llm).1 = some a →
      (scoreBasedPath store pid pn nrr msg ts now fid ⟨"Normal", ""⟩).1 = some a0 →
      a.level = a0.level ∧
      ((a.reason = a0.reason ∧ a.source = a0.source) ∨
       (a.reason = a0.reason ++ " | " ++ llm.reason ∧ a.source = "fusion" ∧
        a0.source = "rules"))) := by
  by_cases hcd : cooldownHitFor store pid (nrr.rule_score.getD 0) now = true
  · simp only [scoreBasedPath]
    rw [if_pos hcd, if_pos hcd]
    refine ⟨rfl, ?_, ?_⟩
    · intro a ha
      exact Or.inr (mem_store_of_find? ha)
    · intro a a0 ha ha0
      have heq : a = a0 := Option.some.inj (ha.symm.trans ha0)
      subst heq
      exact ⟨rfl, Or.inl ⟨rfl, rfl⟩⟩
  · have hcd' : ¬ cooldownHitFor store pid (nrr.rule_score.getD 0) now = true := hcd
    have h0 : ¬ (msg ≠ "" ∧ levelOfScore (nrr.rule_score.getD 0) ≠ "Emergency" ∧
        strTrim (LLMResult.mk "Normal" "").reason ≠ "") := by
      rintro ⟨-, -, hx⟩
      exact hx rfl
    simp only [scoreBasedPath, pushAlert]
    rw [if_neg hcd', if_neg hcd']
    by_cases hc : (msg ≠ "" ∧ levelOfScore (nrr.rule_score.getD 0) ≠ "Emergency" ∧
        strTrim llm.reason ≠ "")
    · rw [if_pos hc, if_neg h0]
      refine ⟨rfl, ?_, ?_⟩
      · intro a ha
        obtain rfl := Option.some.inj ha
        exact Or.inl rfl
      · intro a a0 ha ha0
        obtain rfl := Option.some.inj ha
        obtain rfl := Option.some.inj ha0
        exact ⟨rfl, Or.inr ⟨rfl, rfl, rfl⟩⟩
    · rw [if_neg hc, if_neg h0]
      refine ⟨rfl, ?_, ?_⟩
      · intro a ha
        obtain rfl := Option.some.inj ha
        exact Or.inl rfl
      · intro a a0 ha ha0
        obtain rfl := Option.some.inj ha
        obtain rfl := Option.some.inj ha0
        exact ⟨rfl, Or.inl ⟨rfl, rfl⟩⟩

/-- C5: the classifier cannot interfere with the triage level.  For every
classifier output the returned alert's level equals the level of the
rule-only run (the run whose classifier result is the failure output
`{Normal, ""}`); on classifier failure any newly created alert keeps
source `rules`; and relative to the rule-only run the classifier may
only extend the reason text with a suffix and switch the source from
`rules` to `fusion`. -/
theorem classifier_noninterference
    (store : List Alert) (patient : Option PatientIn) (rr : Option RuleResultIn)
    (lp : Option LLMParsedIn) (vit : Option Vitals) (msgIn : Option String)
    (tsIn : Option ℤ) (now : ℤ) (freshId : String) (llm : LLMResult) :
    ((evaluateAndEmitAlert store patient rr lp vit msgIn tsIn now freshId llm).1.map
        Alert.level =
      (evaluateAndEmitAlert store patient rr lp vit msgIn tsIn now freshId
        ⟨"Normal", ""⟩).1.map Alert.level) ∧
    (∀ a, (evaluateAndEmitAlert store patient rr lp vit msgIn tsIn now freshId
        ⟨"Normal", ""⟩).1 = some a → a.source = "rules" ∨ a ∈ store) ∧
    (∀ a a0,
      (evaluateAndEmitAlert store patient rr lp vit msgIn tsIn now freshId llm).1 =
        some a →
      (evaluateAndEmitAlert store patient rr lp vit msgIn tsIn now freshId
        ⟨"Normal", ""⟩).1 = some a0 →
      a.level = a0.level ∧
      ((a.reason = a0.reason ∧ a.source = a0.source) ∨
       (a.reason = a0.reason ++ " | " ++ llm.reason ∧ a.source = "fusion" ∧
        a0.source = "rules"))) := by
  cases patient with
  | none =>
    simp only [evaluateAndEmitAlert]
    refine ⟨by trivial, ?_, ?_⟩
    · intro a ha
      exact absurd ha (by simp)
    · intro a a0 ha ha0
      exact absurd ha (by simp)
  | some pt =>
    by_cases hpid : pt.id = ""
    · simp only [evaluateAndEmitAlert, if_pos hpid]
      refine ⟨by trivial, ?_, ?_⟩
      · intro a ha
        exact absurd ha (by simp)
      · intro a a0 ha ha0
        exact absurd ha (by simp)
    · simp only [evaluateAndEmitAlert, if_neg hpid]
      cases hcir : checkImmediateRules (mergedVitalsOf rr lp vit) (normMsg msgIn) with
      | none =>
        exact scoreBasedPath_noninterference store pt.id _ (rr.getD {})
          (normMsg msgIn) (tsIn.getD now) now freshId llm
      | some hit =>
        by_cases hl : hit.level = "Emergency"
        · simp only [if_pos hl]
          by_cases hcool : isWithinCooldown store pt.id "Emergency" now = true
          · simp only [if_pos hcool]
            refine ⟨by trivial, ?_, ?_⟩
            · intro a ha
              exact Or.inr (mem_store_of_find? ha)
            · intro a a0 ha ha0
              have heq : a = a0 := Option.some.inj (ha.symm.trans ha0)
              subst heq
              exact ⟨rfl, Or.inl ⟨rfl, rfl⟩⟩
          · simp only [if_neg hcool]
            refine ⟨by trivial, ?_, ?_⟩
            · intro a ha
              obtain rfl := Option.some.inj ha
              exact Or.inl rfl
            · intro a a0 ha ha0
              have heq : a = a0 := Option.some.inj (ha.symm.trans ha0)
              subst heq
              exact ⟨rfl, Or.inl ⟨rfl, rfl⟩⟩
        · simp only [if_neg hl]
          exact scoreBasedPath_noninterference store pt.id _ (rr.getD {})
            (normMsg msgIn) (tsIn.getD now) now freshId llm

lemma isWithinCooldown_nil (pid lvl : String) (now : ℤ) :
    isWithinCooldown [] pid lvl now = false := by
  unfold isWithinCooldown getRecentForPatient
  split_ifs <;> rfl

lemma cooldownHitFor_nil (pid : String) (s : ℕ) (now : ℤ) :
    cooldownHitFor [] pid s now = false := by
  unfold cooldownHitFor
  split_ifs <;> first | rfl | exact isWithinCooldown_nil _ _ _

lemma cooldownHitFor_eq (store : List Alert) (pid : String) (s : ℕ) (now : ℤ) :
    cooldownHitFor store pid s now =
      if levelOfScore s = "Normal" then false
      else isWithinCooldown store pid (levelOfScore s) now := by
  unfold cooldownHitFor levelOfScore
  split_ifs <;> simp_all

/-- The alert created by a first fusion call on an empty store with rule
score `s1` and no vitals or message (spelled out for use in the cooldown
idempotence statement's proof). -/
def firstCallAlert (pid nm i1 : String) (s1 : ℕ) (t1 : ℤ) : Alert :=
  normalizeAlert
    { id := i1, level := levelOfScore s1, patientId := pid,
      patientName :=
        if strTrim nm ≠ "" then strTrim nm
        else if strTrim "" ≠ "" then strTrim "" else "Unknown Patient",
      reason := reasonOfScore s1 (joinWith ", " (List.take 2 ([] : List String))),
      score := some s1, source := "rules", timestamp := t1 } i1 t1

lemma firstCall_eval (pid nm i1 : String) (s1 : ℕ) (t1 : ℤ)
    (hpid : pid ≠ "") :
    evaluateAndEmitAlert [] (some ⟨pid, nm, ""⟩) (some { rule_score := some s1 })
        none none none none t1 i1 ⟨"Normal", ""⟩ =
      (some (firstCallAlert pid nm i1 s1 t1), [firstCallAlert pid nm i1 s1 t1]) := by
  simp only [evaluateAndEmitAlert, if_neg hpid]
  rw [show checkImmediateRules
      (mergedVitalsOf (some { rule_score := some s1 }) none none)
      (normMsg none) = none from rfl]
  simp only [scoreBasedPath, Option.getD_some]
  rw [cooldownHitFor_nil]
  simp only [Bool.false_eq_true, if_false]
  rw [show normMsg none = "" from rfl]
  simp only [ne_eq, not_true_eq_false, false_and, if_false, pushAlert]
  rfl

lemma firstCallAlert_level (pid nm i1 : String) (s1 : ℕ) (t1 : ℤ) :
    (firstCallAlert pid nm i1 s1 t1).level = levelOfScore s1 := by
  unfold firstCallAlert
  rw [normalizeAlert_level]
  exact normalize_level_keeps _ (levelOfScore_valid _)

lemma firstCallAlert_pid (pid nm i1 : String) (s1 : ℕ) (t1 : ℤ)
    (hpid : pid ≠ "") :
    (firstCallAlert pid nm i1 s1 t1).patientId = pid := by
  unfold firstCallAlert normalizeAlert
  simp [hpid]

lemma firstCallAlert_ts (pid nm i1 : String) (s1 : ℕ) (t1 : ℤ) :
    (firstCallAlert pid nm i1 s1 t1).timestamp = t1 := rfl

lemma levelOfScore_ne_empty (s : ℕ) : levelOfScore s ≠ "" := by
  rcases levelOfScore_valid s with h | h | h <;> rw [h] <;> decide

lemma getRecentForPatient_singleton (a : Alert) (pid : String) (n : ℕ)
    (hpid : pid ≠ "") (ha : a.patientId = pid) :
    getRecentForPatient [a] pid n = [a] := by
  unfold getRecentForPatient
  rw [if_neg hpid]
  have hf : List.filter (fun x => strLower x.patientId == strLower pid) [a] = [a] := by
    simp [List.filter, ha]
  rw [hf]
  have h1 : 1 ≤ min (max 1 n) 200 := by omega
  cases hmin : min (max 1 n) 200 with
  | zero => omega
  | succ k => simp [List.take]

lemma secondCall_suppressed (pid nm nm2 i1 i2 : String) (s1 s2 : ℕ) (t1 t2 : ℤ)
    (hpid : pid ≠ "") (hlvl : levelOfScore s1 = levelOfScore s2)
    (hnn : levelOfScore s2 ≠ "Normal")
    (h0 : 0 ≤ t2 - t1) (h5 : t2 - t1 < COOLDOWN_MS) :
    evaluateAndEmitAlert [firstCallAlert pid nm i1 s1 t1] (some ⟨pid, nm2, ""⟩)
        (some { rule_score := some s2 }) none none none none t2 i2 ⟨"Normal", ""⟩ =
      (some (firstCallAlert pid nm i1 s1 t1), [firstCallAlert pid nm i1 s1 t1]) := by
  have hA1p := firstCallAlert_pid pid nm i1 s1 t1 hpid
  have hbeq : ((firstCallAlert pid nm i1 s1 t1).level == levelOfScore s2) = true := by
    rw [firstCallAlert_level, hlvl]
    simp
  have hwc : isWithinCooldown [firstCallAlert pid nm i1 s1 t1] pid
      (levelOfScore s2) t2 = true := by
    unfold isWithinCooldown
    rw [if_neg (by push_neg; exact ⟨hpid, levelOfScore_ne_empty s2⟩)]
    rw [getRecentForPatient_singleton _ _ _ hpid hA1p]
    simp only [List.any_cons, List.any_nil, Bool.or_false]
    rw [hbeq, firstCallAlert_ts]
    simp only [Bool.true_and, Bool.and_eq_true, decide_eq_true_eq]
    exact ⟨h5, h0⟩
  have hcd : cooldownHitFor [firstCallAlert pid nm i1 s1 t1] pid s2 t2 = true := by
    rw [cooldownHitFor_eq, if_neg hnn, hwc]
  simp only [evaluateAndEmitAlert, if_neg hpid]
  rw [show checkImmediateRules
      (mergedVitalsOf (some { rule_score := some s2 }) none none)
      (normMsg none) = none from rfl]
  simp only [scoreBasedPath, Option.getD_some]
  rw [if_pos hcd]
  rw [getRecentForPatient_singleton _ _ _ hpid hA1p]
  have hfind : List.find? (fun a => a.level == levelOfScore s2)
      [firstCallAlert pid nm i1 s1 t1] = some (firstCallAlert pid nm i1 s1 t1) := by
    simp only [List.find?]
    rw [hbeq]
  rw [hfind]

/-- C4 amended: cooldown idempotence for the non-Normal levels.  Two
fusion calls for the same patient on an initially empty store within the
5-minute window, both resolving (by score) to the same non-Normal level,
persist exactly one alert: the second call leaves the store unchanged
and returns the alert created by the first call. -/
theorem cooldown_idempotent_nonnormal
    (pid nm i1 i2 : String) (s1 s2 : ℕ) (t1 t2 : ℤ)
    (hpid : pid ≠ "") (hlvl : levelOfScore s1 = levelOfScore s2)
    (hnn : levelOfScore s2 ≠ "Normal")
    (h0 : 0 ≤ t2 - t1) (h5 : t2 - t1 < COOLDOWN_MS) :
    (evaluateAndEmitAlert [] (some ⟨pid, nm, ""⟩) (some { rule_score := some s1 })
        none none none none t1 i1 ⟨"Normal", ""⟩).2.length = 1 ∧
    evaluateAndEmitAlert
        (evaluateAndEmitAlert [] (some ⟨pid, nm, ""⟩)
          (some { rule_score := some s1 }) none none none none t1 i1
          ⟨"Normal", ""⟩).2
        (some ⟨pid, nm, ""⟩) (some { rule_score := some s2 }) none none none none
        t2 i2 ⟨"Normal", ""⟩ =
      ((evaluateAndEmitAlert [] (some ⟨pid, nm, ""⟩)
          (some { rule_score := some s1 }) none none none none t1 i1
          ⟨"Normal", ""⟩).1,
       (evaluateAndEmitAlert [] (some ⟨pid, nm, ""⟩)
          (some { rule_score := some s1 }) none none none none t1 i1
          ⟨"Normal", ""⟩).2) := by
  rw [firstCall_eval pid nm i1 s1 t1 hpid]
  exact ⟨rfl, secondCall_suppressed pid nm nm i1 i2 s1 s2 t1 t2 hpid hlvl hnn h0 h5⟩

/-- Witness for `cooldown_idempotent_nonnormal`: two Emergency-level
(score 16) submissions one second apart. -/
theorem cooldown_idempotent_nonnormal_witness :
    (evaluateAndEmitAlert [] (some ⟨"p1", "N", ""⟩) (some { rule_score := some 16 })
        none none none none 0 "a1" ⟨"Normal", ""⟩).2.length = 1 ∧
    evaluateAndEmitAlert
        (evaluateAndEmitAlert [] (some ⟨"p1", "N", ""⟩)
          (some { rule_score := some 16 }) none none none none 0 "a1"
          ⟨"Normal", ""⟩).2
        (some ⟨"p1", "N", ""⟩) (some { rule_score := some 16 }) none none none none
        1000 "a2" ⟨"Normal", ""⟩ =
      ((evaluateAndEmitAlert [] (some ⟨"p1", "N", ""⟩)
          (some { rule_score := some 16 }) none none none none 0 "a1"
          ⟨"Normal", ""⟩).1,
       (evaluateAndEmitAlert [] (some ⟨"p1", "N", ""⟩)
          (some { rule_score := some 16 }) none none none none 0 "a1"
          ⟨"Normal", ""⟩).2) :=
  cooldown_idempotent_nonnormal "p1" "N" "a1" "a2" 16 16 0 1000
    (by decide) rfl (by decide) (by decide) (by decide)

/-- C4 counterexample: for the Normal level the claim fails — two
Normal-level calls for the same patient one minute apart each persist a
new alert (the store grows to two records and the second call does not
return the first alert), because the Normal branch never consults the
cooldown. -/
theorem cooldown_normal_counterexample :
    ((evaluateAndEmitAlert [] (some { id := "p1", name := "N", patientName := "" })
        (some { rule_score := some 0 }) none none none none 0 "a1"
        ⟨"Normal", ""⟩).1.map Alert.level = some "Normal") ∧
    ((evaluateAndEmitAlert [] (some { id := "p1", name := "N", patientName := "" })
        (some { rule_score := some 0 }) none none none none 0 "a1"
        ⟨"Normal", ""⟩).2.length = 1) ∧
    ((evaluateAndEmitAlert
        (evaluateAndEmitAlert [] (some { id := "p1", name := "N", patientName := "" })
          (some { rule_score := some 0 }) none none none none 0 "a1"
          ⟨"Normal", ""⟩).2
        (some { id := "p1", name := "N", patientName := "" })
        (some { rule_score := some 0 }) none none none none 60000 "a2"
        ⟨"Normal", ""⟩).1.map Alert.level = some "Normal") ∧
    ((evaluateAndEmitAlert
        (evaluateAndEmitAlert [] (some { id := "p1", name := "N", patientName := "" })
          (some { rule_score := some 0 }) none none none none 0 "a1"
          ⟨"Normal", ""⟩).2
        (some { id := "p1", name := "N", patientName := "" })
        (some { rule_score := some 0 }) none none none none 60000 "a2"
        ⟨"Normal", ""⟩).2.length = 2) ∧
    ((60000 : ℤ) - 0 < COOLDOWN_MS) :=
  ⟨rfl, rfl, rfl, rfl, by decide⟩

/-- Witness for `classifier_noninterference`: at rule score 5 with a
message present, a successful classifier changes the source to `fusion`
while the level equals that of the rule-only run; the rule-only (failure
output) run keeps source `rules`. -/
theorem classifier_noninterference_witness :
    ((evaluateAndEmitAlert [] (some { id := "p1", name := "N", patientName := "" })
        (some { rule_score := some 5 }) none none (some "hi") none 0 "a1"
        ⟨"Priority", "looks bad"⟩).1.map Alert.level =
      (evaluateAndEmitAlert [] (some { id := "p1", name := "N", patientName := "" })
        (some { rule_score := some 5 }) none none (some "hi") none 0 "a1"
        ⟨"Normal", ""⟩).1.map Alert.level) ∧
    ((evaluateAndEmitAlert [] (some { id := "p1", name := "N", patientName := "" })
        (some { rule_score := some 5 }) none none (some "hi") none 0 "a1"
        ⟨"Priority", "looks bad"⟩).1.map Alert.source = some "fusion") ∧
    ((evaluateAndEmitAlert [] (some { id := "p1", name := "N", patientName := "" })
        (some { rule_score := some 5 }) none none (some "hi") none 0 "a1"
        ⟨"Normal", ""⟩).1.map Alert.source = some "rules") :=
  ⟨(classifier_noninterference [] (some { id := "p1", name := "N", patientName := "" })
      (some { rule_score := some 5 }) none none (some "hi") none 0 "a1"
      ⟨"Priority", "looks bad"⟩).1, rfl, rfl⟩
